import Mathlib

/-!
Shallow embedding of the four Python wrapper scripts of the CppLlmCLI
repository (`build.py`, `repl_runner.py`, `validate.py`, `llm-repl.py`).

Each script is a straight-line sequence of subprocess invocations and
conditional branching on exit codes.  The embedding makes the external
world explicit:

* the outcome of a subprocess call is a parameter (an exit code, or an
  `Except` value distinguishing "raised an exception" from "returned");
* the filesystem state that the scripts touch (the `build/` directory)
  is an explicit `Option (List String)` — `none` when the directory is
  absent, `some contents` when present;
* Python truthiness tests (`if args.config:`, `if args.max_tokens:`) are
  translated exactly: an `Option String` is truthy when it holds a
  non-empty string, an `Option Int` when it holds a nonzero integer.
-/

/-! ## Generic helpers -/

/-- Substring test: `containsSub needle hay` is Python's `needle in hay`
on the character lists of the two strings. -/
def containsSub (needle : List Char) : List Char → Bool
  | [] => needle.isPrefixOf ([] : List Char)
  | c :: rest => needle.isPrefixOf (c :: rest) || containsSub needle rest

/-- String-level wrapper for `containsSub`. -/
def strContains (needle hay : String) : Bool :=
  containsSub needle.data hay.data

/-- Accumulating digit parser for the body of a Python integer literal:
digits with single underscores allowed between two digits
(`int("1_000")` succeeds, `int("1__0")`, `int("1_")` fail). -/
def digitsToNat (acc : Nat) : List Char → Option Nat
  | [] => some acc
  | c :: cs =>
    if c.isDigit then digitsToNat (acc * 10 + (c.toNat - 48)) cs
    else if c = '_' then
      match cs with
      | [] => none
      | d :: cs2 =>
        if d.isDigit then digitsToNat (acc * 10 + (d.toNat - 48)) cs2
        else none
    else none

/-- Model of Python's `int(s)` on a string argument: strip surrounding
whitespace, allow one leading `+` or `-`, then a digit sequence with
optional single underscores between digits; anything else raises
`ValueError`, modelled as `none`.  (Unicode digits and the less common
whitespace characters are out of scope; no claim depends on them.) -/
def pyIntParse (s : String) : Option Int :=
  let cs := s.data.dropWhile Char.isWhitespace
  let cs := (cs.reverse.dropWhile Char.isWhitespace).reverse
  match cs with
  | [] => none
  | '+' :: rest =>
    match rest with
    | [] => none
    | d :: _ => if d.isDigit then (digitsToNat 0 rest).map Int.ofNat else none
  | '-' :: rest =>
    match rest with
    | [] => none
    | d :: _ => if d.isDigit then (digitsToNat 0 rest).map (fun n => -(n : Int)) else none
  | d :: _ => if d.isDigit then (digitsToNat 0 cs).map Int.ofNat else none

/-! ## `repl_runner.py` -/

/-- Outcome of `subprocess.run(cmd, cwd=...)` inside
`REPLRunner.run_repl`: the external executable ran to completion with
some return code, the wait was interrupted by `KeyboardInterrupt`, or
some other exception was raised. -/
inductive ReplRunOutcome where
  | completed (returncode : Int)
  | interrupted
  | failed
deriving DecidableEq

/-- `REPLRunner.run_repl` (src/repl_runner.py lines 27-51): returns
`False` when the executable is missing; otherwise runs it and returns
`process.returncode == 0`; a `KeyboardInterrupt` yields `True`, any
other exception `False`. -/
def run_repl (exeExists : Bool) (outcome : ReplRunOutcome) : Bool :=
  if exeExists = false then false
  else
    match outcome with
    | .completed rc => rc == 0
    | .interrupted => true
    | .failed => false

/-- Exit code of the `repl_runner.py` process (lines 88-89, 110-116,
119-121): with `--help-repl` the script does `return runner.run_repl([...])`,
so `sys.exit` receives a `bool` (`True` exits with status 1, `False`
with 0); otherwise `main` returns `1` when `run_repl` returned `False`
and `0` when it returned `True`. -/
def replRunnerMainExit (helpRepl : Bool) (exeExists : Bool) (outcome : ReplRunOutcome) : Nat :=
  if helpRepl then
    if run_repl exeExists outcome then 1 else 0
  else
    if run_repl exeExists outcome then 0 else 1

/-- Command-line options of `repl_runner.py` after `argparse`: optional
string values are `none` when the flag was not given.  The temperature
is stored as the string rendering `str(args.temperature)` that the
script forwards; only its presence (`is not None`) is ever tested. -/
structure ReplOptions where
  config : Option String
  provider : Option String
  model : Option String
  apiKey : Option String
  temperature : Option String
  maxTokens : Option Int
  verbose : Bool
  helpRepl : Bool
deriving DecidableEq

/-- One `repl_args.extend(["--flag", value])` guarded by `if args.flag:`
for a string-valued option: Python string truthiness drops `none` and
the empty string. -/
def strOptSeg (flag : String) (v : Option String) : List String :=
  match v with
  | some s => if s.isEmpty then [] else [flag, s]
  | none => []

/-- The `--temperature` segment, guarded by `if args.temperature is not
None:` (src/repl_runner.py lines 102-103). -/
def tempSeg (v : Option String) : List String :=
  match v with
  | some t => ["--temperature", t]
  | none => []

/-- The `--max-tokens` segment, guarded by `if args.max_tokens:`
(src/repl_runner.py lines 104-105): integer truthiness drops `none`
and `0`. -/
def maxTokSeg (v : Option Int) : List String :=
  match v with
  | some n => if n = 0 then [] else ["--max-tokens", toString n]
  | none => []

/-- The argument list `repl_args` that `repl_runner.py`'s `main` builds
and passes to the external executable (src/repl_runner.py lines 92-107). -/
def buildReplArgs (o : ReplOptions) : List String :=
  strOptSeg "--config" o.config ++
  strOptSeg "--provider" o.provider ++
  strOptSeg "--model" o.model ++
  strOptSeg "--api-key" o.apiKey ++
  tempSeg o.temperature ++
  maxTokSeg o.maxTokens ++
  (if o.verbose then ["--verbose"] else [])

/-- Spec-side description of the forwarded arguments for the amended C6:
the seven recognized flags in the fixed order config, provider, model,
api-key, temperature, max-tokens, verbose, each contributing
`[flag, value]` exactly when its value is truthy (non-empty string /
present temperature / nonzero max-tokens / verbose set), and nothing
else. -/
def forwardedArgsOfSpec (o : ReplOptions) : List String :=
  List.flatten
    [ (match o.config with
       | some s => if s = "" then [] else ["--config", s]
       | none => [])
    , (match o.provider with
       | some s => if s = "" then [] else ["--provider", s]
       | none => [])
    , (match o.model with
       | some s => if s = "" then [] else ["--model", s]
       | none => [])
    , (match o.apiKey with
       | some s => if s = "" then [] else ["--api-key", s]
       | none => [])
    , (match o.temperature with
       | some t => ["--temperature", t]
       | none => [])
    , (match o.maxTokens with
       | some n => if n = 0 then [] else ["--max-tokens", toString n]
       | none => [])
    , (if o.verbose then ["--verbose"] else []) ]

/-! ## `build.py` -/

/-- The two subprocesses `build.py`'s `main` can launch: the CMake
configure step and the CMake build step. -/
inductive BuildStep where
  | configure
  | build
deriving DecidableEq

/-- Result of one run of `build.py`'s `main`: the returned exit code,
the subprocesses launched (in order), the state of the `build/`
directory at the moment CMake is invoked (`none` = absent,
`some contents` = present with those entries), and whether the
pre-existing directory was deleted by the `--clean` branch. -/
structure BuildRun where
  exitCode : Nat
  steps : List BuildStep
  dirAtCMake : Option (List String)
  deletedPrior : Bool
deriving DecidableEq

/-- `build.py` `main` (src/build.py lines 16-58): delete the build
directory when `--clean` was given and it exists (`shutil.rmtree`),
then `build_dir.mkdir(exist_ok=True)`; run the CMake configure command
and return 1 on failure without building; run the build command and
return 1 on failure; otherwise return 0.  The exit codes of the two
subprocesses are parameters (`run_command` reports
`returncode == 0`). -/
def buildMain (clean : Bool) (dir : Option (List String)) (cfgExit buildExit : Int) : BuildRun :=
  let deleted := clean && dir.isSome
  let dir1 := if deleted then none else dir
  let dir2 := match dir1 with
    | some c => some c
    | none => some []
  if cfgExit ≠ 0 then ⟨1, [.configure], dir2, deleted⟩
  else if buildExit ≠ 0 then ⟨1, [.configure, .build], dir2, deleted⟩
  else ⟨0, [.configure, .build], dir2, deleted⟩

/-! ## `validate.py` -/

/-- The fixed step table `validation_steps` of `run_validation`
(src/validate.py lines 22-30): display name and command line of each of
the seven steps. -/
def validationSteps : List (String × List String) :=
  [ ("Project Status Check", ["python", "llm-repl.py", "status"])
  , ("Clean Build Environment", ["python", "llm-repl.py", "clean"])
  , ("Full Release Build", ["python", "llm-repl.py", "build", "--release"])
  , ("Comprehensive Testing", ["python", "llm-repl.py", "test"])
  , ("Code Formatting Check", ["python", "llm-repl.py", "format"])
  , ("Application Version Test", ["python", "llm-repl.py", "run", "--", "--version"])
  , ("Application Help Test", ["python", "llm-repl.py", "run", "--", "--help"]) ]

/-- The `for step_name, command in validation_steps:` loop of
`run_validation` (src/validate.py lines 35-50).  `subprocess.run(...,
check=True)` raises `CalledProcessError` exactly when the command's
exit code is nonzero; the `except` clause catches it and records a
failure, so the loop always continues to the next step.  `oracle`
gives each command's exit code; the result is the `results` list of
(name, success) pairs together with the list of commands invoked, in
order. -/
def runStepsLoop (oracle : List String → Int) :
    List (String × List String) → List (String × Bool) × List (List String)
  | [] => ([], [])
  | (name, cmd) :: rest =>
    let rc := oracle cmd
    let (results, invoked) := runStepsLoop oracle rest
    ((name, rc == 0) :: results, cmd :: invoked)

/-- `run_validation`'s return value (src/validate.py lines 61-99):
`passed` counts the successful steps and the function returns 0 when
`passed == total` and 1 otherwise. -/
def runValidation (oracle : List String → Int) : Nat :=
  let results := (runStepsLoop oracle validationSteps).1
  let passed := (results.filter (fun r => r.2)).length
  if passed = results.length then 0 else 1

/-- The status column of the summary report (src/validate.py lines
64-66): `"[PASS]" if success else "[FAIL]"` for each recorded step. -/
def reportMarks (results : List (String × Bool)) : List String :=
  results.map (fun r => if r.2 then "[PASS]" else "[FAIL]")

/-! ## `llm-repl.py` -/

/-- `TestCommand._test_version_check` (src/llm-repl.py lines 387-418):
fails when the executable is missing; otherwise runs
`run_command([exe, "--version"])` with `check=True`, so `run` is
`Except.ok stdout` when the executable ran and exited 0 and
`Except.error ()` when `CalledProcessError` (nonzero exit) or any other
exception was raised; the test passes exactly when the captured stdout
contains "LLM REPL v". -/
def test_version_check (exeExists : Bool) (run : Except Unit String) : Bool :=
  if exeExists = false then false
  else
    match run with
    | .ok out => strContains "LLM REPL v" out
    | .error _ => false

/-- `TestCommand._test_help_output` (src/llm-repl.py lines 420-451):
same structure as the version test, with `--help` and the substring
"Interactive AI Chat Terminal". -/
def test_help_output (exeExists : Bool) (run : Except Unit String) : Bool :=
  if exeExists = false then false
  else
    match run with
    | .ok out => strContains "Interactive AI Chat Terminal" out
    | .error _ => false

/-- `TestCommand._test_invalid_args` (src/llm-repl.py lines 500-527):
fails when the executable is missing; otherwise runs the executable
with `--invalid-flag` and `check=False`; both the normal return (any
exit code, any output, `Except.ok`) and the exception path
(`Except.error`) produce `passed=True`. -/
def test_invalid_args (exeExists : Bool) (run : Except Unit (Int × String)) : Bool :=
  if exeExists = false then false
  else
    match run with
    | .ok _ => true
    | .error _ => true

/-- Python's `str.lower()` applied to the command word
(`sys.argv[1].lower()`); ASCII lowercasing character by character (the
commands compared against are all ASCII). -/
def pyLower (s : String) : String := String.mk (s.data.map Char.toLower)

/-- The `--` separator handling of `llm-repl.py`'s `main`
(src/llm-repl.py lines 636-641): split the arguments after the command
at the first `--` into script options and application arguments. -/
def splitDashDash (args : List String) : List String × List String :=
  if args.contains "--" then
    (args.take (args.indexOf "--"), args.drop (args.indexOf "--" + 1))
  else (args, [])

/-- The `--jobs` parsing block of `llm-repl.py`'s `main` (src/llm-repl.py
lines 648-656): `jobs` defaults to 4; when `--jobs` is present and a
token follows its first occurrence, that token goes through Python's
`int()`, and a `ValueError` makes `main` return 1; when no token
follows, the default is kept silently. -/
def parseJobs (options : List String) : Except Unit Int :=
  if options.contains "--jobs" then
    if options.indexOf "--jobs" + 1 < options.length then
      match pyIntParse (options.getD (options.indexOf "--jobs" + 1) "") with
      | some n => Except.ok n
      | none => Except.error ()
    else Except.ok 4
  else Except.ok 4

/-- The six dispatchable subcommands of `llm-repl.py`'s `main`
(src/llm-repl.py lines 668-679). -/
def knownCommands : List String := ["status", "clean", "build", "run", "test", "format"]

/-- Observable outcome of one run of `llm-repl.py`'s `main`: the exit
code, which subcommand (if any) was dispatched, and the `jobs` value
placed in the `BuildConfig` (`none` when `main` exited before
constructing it). -/
structure LlmMainResult where
  exitCode : Nat
  executed : Option String
  jobsUsed : Option Int
deriving DecidableEq

/-- `llm-repl.py` `main` (src/llm-repl.py lines 618-695): no arguments
or the `help` command show the help and return 0; otherwise the
arguments after the command are split at `--`, the `--jobs` block runs
(returning 1 on an invalid value, before any command is dispatched),
the `BuildConfig` is constructed with the parsed `jobs`, and the
command is dispatched — each command handler returns a success flag
(abstracted by the `exec` oracle, since the handlers only shell out and
touch the filesystem), turned into exit code 0 or 1; an unknown command
returns 1. -/
def llmMain (argv : List String) (exec : String → Bool) : LlmMainResult :=
  match argv with
  | [] => ⟨0, none, none⟩
  | cmd0 :: rest =>
    let command := pyLower cmd0
    if command = "help" then ⟨0, none, none⟩
    else
      let options := (splitDashDash rest).1
      match parseJobs options with
      | .error _ => ⟨1, none, none⟩
      | .ok jobs =>
        if knownCommands.contains command then
          ⟨if exec command then 0 else 1, some command, some jobs⟩
        else ⟨1, none, some jobs⟩

/-! ## Theorems -/

/-- A filtered list keeps its full length exactly when every element
satisfies the predicate. -/
theorem filter_len_eq_iff {α : Type} (p : α → Bool) (l : List α) :
    (l.filter p).length = l.length ↔ ∀ a ∈ l, p a = true := by
  induction l with
  | nil => simp
  | cons x xs ih =>
    by_cases hx : p x = true
    · simp [List.filter_cons, hx, ih]
    · simp only [List.filter_cons, if_neg hx, List.length_cons]
      constructor
      · intro h
        exfalso
        have hle := List.length_filter_le p xs
        omega
      · intro h
        exact absurd (h x (by simp)) hx

/-- C2: `run_validation` returns 0 exactly when all seven steps'
subprocesses exit with code 0, returns 1 otherwise, and the summary
report marks each step `[PASS]` exactly when that step's subprocess
exited 0 and `[FAIL]` otherwise. -/
theorem validate_exit_and_marks (oracle : List String → Int) :
    ((runValidation oracle = 0) ↔ (∀ p ∈ validationSteps, oracle p.2 = 0)) ∧
    (runValidation oracle = 0 ∨ runValidation oracle = 1) ∧
    reportMarks (runStepsLoop oracle validationSteps).1 =
      validationSteps.map (fun p => if oracle p.2 = 0 then "[PASS]" else "[FAIL]") := by
  have hval : runValidation oracle =
      if ((runStepsLoop oracle validationSteps).1.filter (fun r => r.2)).length =
          ((runStepsLoop oracle validationSteps).1).length
      then 0 else 1 := rfl
  refine ⟨?_, ?_, ?_⟩
  · rw [hval]
    by_cases hc : ((runStepsLoop oracle validationSteps).1.filter (fun r => r.2)).length =
        ((runStepsLoop oracle validationSteps).1).length
    case neg =>
      rw [if_neg hc]
      rw [filter_len_eq_iff] at hc
      simp only [one_ne_zero, false_iff]
      intro h
      apply hc
      have e1 := h ("Project Status Check", ["python", "llm-repl.py", "status"])
        (by simp [validationSteps])
      have e2 := h ("Clean Build Environment", ["python", "llm-repl.py", "clean"])
        (by simp [validationSteps])
      have e3 := h ("Full Release Build", ["python", "llm-repl.py", "build", "--release"])
        (by simp [validationSteps])
      have e4 := h ("Comprehensive Testing", ["python", "llm-repl.py", "test"])
        (by simp [validationSteps])
      have e5 := h ("Code Formatting Check", ["python", "llm-repl.py", "format"])
        (by simp [validationSteps])
      have e6 := h ("Application Version Test", ["python", "llm-repl.py", "run", "--", "--version"])
        (by simp [validationSteps])
      have e7 := h ("Application Help Test", ["python", "llm-repl.py", "run", "--", "--help"])
        (by simp [validationSteps])
      intro r hr
      simp only [runStepsLoop, validationSteps, List.mem_cons, List.not_mem_nil, or_false] at hr
      rcases hr with h1 | h1 | h1 | h1 | h1 | h1 | h1 <;> subst h1 <;>
        simp only [beq_iff_eq] <;> assumption
    case pos =>
      rw [if_pos hc]
      rw [filter_len_eq_iff] at hc
      simp only [true_iff]
      intro p hp
      have := hc (p.1, oracle p.2 == 0) (by
        simp only [validationSteps, List.mem_cons, List.not_mem_nil, or_false] at hp
        simp only [runStepsLoop, validationSteps]
        rcases hp with h1 | h1 | h1 | h1 | h1 | h1 | h1 <;> subst h1 <;> simp)
      simpa [beq_iff_eq] using this
  · rw [hval]
    split <;> simp
  · simp only [reportMarks, runStepsLoop, validationSteps, List.map_cons, List.map_nil]
    simp [beq_iff_eq]

/-- C3: the seven validation steps are invoked sequentially in the
fixed order status, clean, build --release, test, format,
run -- --version, run -- --help, and every step is invoked no matter
which exit codes (including failures) the earlier steps produce. -/
theorem validate_steps_fixed_order (oracle : List String → Int) :
    (runStepsLoop oracle validationSteps).2 =
      [ ["python", "llm-repl.py", "status"]
      , ["python", "llm-repl.py", "clean"]
      , ["python", "llm-repl.py", "build", "--release"]
      , ["python", "llm-repl.py", "test"]
      , ["python", "llm-repl.py", "format"]
      , ["python", "llm-repl.py", "run", "--", "--version"]
      , ["python", "llm-repl.py", "run", "--", "--help"] ] := rfl

/-- C4: in `build.py`'s `main`, a nonzero configure exit code yields
return value 1 with the build subprocess never invoked; a zero
configure exit code followed by a nonzero build exit code yields 1;
two zero exit codes yield 0. -/
theorem build_exit_codes (clean : Bool) (dir : Option (List String)) (cfgExit buildExit : Int) :
    (cfgExit ≠ 0 →
      (buildMain clean dir cfgExit buildExit).exitCode = 1 ∧
      BuildStep.build ∉ (buildMain clean dir cfgExit buildExit).steps) ∧
    (cfgExit = 0 → buildExit ≠ 0 → (buildMain clean dir cfgExit buildExit).exitCode = 1) ∧
    (cfgExit = 0 → buildExit = 0 → (buildMain clean dir cfgExit buildExit).exitCode = 0) := by
  refine ⟨fun h => ?_, fun h1 h2 => ?_, fun h1 h2 => ?_⟩
  · simp [buildMain, h]
  · simp [buildMain, h1, h2]
  · simp [buildMain, h1, h2]

/-- Witness for C4 at concrete exit codes: configure failing with 1,
build failing with 2, and both succeeding. -/
theorem build_exit_codes_witness :
    ((buildMain false none 1 0).exitCode = 1 ∧
      BuildStep.build ∉ (buildMain false none 1 0).steps) ∧
    (buildMain false none 0 2).exitCode = 1 ∧
    (buildMain false none 0 0).exitCode = 0 :=
  ⟨(build_exit_codes false none 1 0).1 (by decide),
   (build_exit_codes false none 0 2).2.1 rfl (by decide),
   (build_exit_codes false none 0 0).2.2 rfl rfl⟩

/-- C5: the pre-existing build directory is deleted exactly when
`--clean` is given and the directory exists; without `--clean` the
prior contents are left in place; and in every case the directory
exists at the moment CMake is invoked. -/
theorem build_dir_lifecycle (clean : Bool) (dir : Option (List String)) (cfgExit buildExit : Int) :
    ((buildMain clean dir cfgExit buildExit).deletedPrior = true ↔
      (clean = true ∧ dir.isSome = true)) ∧
    (clean = false → ∀ c, dir = some c →
      (buildMain clean dir cfgExit buildExit).dirAtCMake = some c) ∧
    ((buildMain clean dir cfgExit buildExit).dirAtCMake.isSome = true) := by
  refine ⟨?_, fun hc c hdir => ?_, ?_⟩
  · cases clean <;> cases dir <;> simp [buildMain] <;> split_ifs <;> simp
  · subst hc; subst hdir
    simp [buildMain]
    split_ifs <;> simp
  · cases clean <;> cases dir <;> simp [buildMain] <;> split_ifs <;> simp

/-- Witness for C5: with `--clean` and an existing directory the prior
directory is deleted; without `--clean` the contents survive; the
directory exists at CMake time even when it was absent initially. -/
theorem build_dir_lifecycle_witness :
    (buildMain true (some ["a.o"]) 0 0).deletedPrior = true ∧
    (buildMain false (some ["a.o"]) 0 0).dirAtCMake = some ["a.o"] ∧
    (buildMain false none 1 0).dirAtCMake.isSome = true :=
  ⟨(build_dir_lifecycle true (some ["a.o"]) 0 0).1.mpr (by decide),
   (build_dir_lifecycle false (some ["a.o"]) 0 0).2.1 rfl ["a.o"] rfl,
   (build_dir_lifecycle false none 1 0).2.2⟩

/-- C1 (counterexample): the claim says the script's exit code equals
the external executable's exit code.  When the executable exists and
exits with code 5, the script exits with 1, not 5. -/
theorem repl_runner_exit_not_relayed :
    replRunnerMainExit false true (ReplRunOutcome.completed 5) = 1 ∧
    replRunnerMainExit false true (ReplRunOutcome.completed 5) ≠ 5 := by
  decide

/-- C1 (amended): for an invocation without `--help-repl` in which the
external executable exists and runs to completion, the script exits 0
when the external exit code is 0 and exits 1 for every nonzero external
exit code; the exit code is collapsed to success/failure, not relayed. -/
theorem repl_runner_exit_collapsed (rc : Int) :
    replRunnerMainExit false true (ReplRunOutcome.completed rc) =
      if rc = 0 then 0 else 1 := by
  simp only [replRunnerMainExit, run_repl, if_neg (by simp : ¬(true = false))]
  by_cases h : rc = 0 <;> simp [h]

/-- C6 (counterexample): the claim says every recognized flag the user
supplies appears in the forwarded argument list; supplying
`--max-tokens 0` (and nothing else) produces an empty argument list, so
the supplied flag does not appear. -/
theorem max_tokens_zero_not_forwarded :
    (ReplOptions.mk none none none none none (some 0) false false).maxTokens = some 0 ∧
    buildReplArgs (ReplOptions.mk none none none none none (some 0) false false) = [] := by
  decide

/-- C6 (amended): the forwarded argument list consists exactly of the
recognized flags whose values are Python-truthy (non-empty strings for
config/provider/model/api-key, any present temperature, a nonzero
max-tokens integer, verbose when set), each followed by its value, in
the fixed order config, provider, model, api-key, temperature,
max-tokens, verbose, with no other arguments added. -/
theorem repl_args_match_spec (o : ReplOptions) :
    buildReplArgs o = forwardedArgsOfSpec o := by
  obtain ⟨c, p, m, k, t, mt, v, h⟩ := o
  simp only [buildReplArgs, forwardedArgsOfSpec, strOptSeg, tempSeg, maxTokSeg, List.flatten]
  cases c <;> cases p <;> cases m <;> cases k <;> cases t <;> cases mt <;>
    simp [String.isEmpty_iff, List.append_assoc]

/-- C8: a `--max-tokens` value of 0 is silently dropped by the integer
truthiness test (its segment is empty and the forwarded list equals the
one built with no max-tokens at all), whereas any present
`--temperature` value is forwarded because the guard tests `is not
None`; every nonzero max-tokens value is forwarded. -/
theorem max_tokens_truthiness_vs_temperature (o : ReplOptions) :
    (o.maxTokens = some 0 →
      maxTokSeg o.maxTokens = [] ∧
      buildReplArgs o =
        buildReplArgs
          (ReplOptions.mk o.config o.provider o.model o.apiKey o.temperature none
            o.verbose o.helpRepl)) ∧
    (∀ t, o.temperature = some t → "--temperature" ∈ buildReplArgs o) ∧
    (∀ n, o.maxTokens = some n → n ≠ 0 → "--max-tokens" ∈ buildReplArgs o) := by
  obtain ⟨c, p, m, k, t, mt, v, h⟩ := o
  refine ⟨fun h0 => ?_, fun tv htv => ?_, fun n hn hnz => ?_⟩
  · cases h0
    simp [buildReplArgs, maxTokSeg]
  · cases htv
    simp [buildReplArgs, tempSeg]
  · cases hn
    simp [buildReplArgs, maxTokSeg, hnz]

/-- Witness for C8 at a concrete input: with `--max-tokens 0` and
`--temperature` rendered as "0.0", the max-tokens segment is empty and
the temperature flag is forwarded. -/
theorem max_tokens_truthiness_witness :
    maxTokSeg (ReplOptions.mk none none none none (some "0.0") (some 0) false false).maxTokens
      = [] ∧
    "--temperature" ∈
      buildReplArgs (ReplOptions.mk none none none none (some "0.0") (some 0) false false) :=
  ⟨((max_tokens_truthiness_vs_temperature
      (ReplOptions.mk none none none none (some "0.0") (some 0) false false)).1 rfl).1,
   (max_tokens_truthiness_vs_temperature
      (ReplOptions.mk none none none none (some "0.0") (some 0) false false)).2.1 "0.0" rfl⟩

/-- C7: the Version Check test passes exactly when the executable
exists, the `--version` run completes without error, and its captured
stdout contains "LLM REPL v"; the Help Output test passes exactly when
the executable exists, the `--help` run completes without error, and
its stdout contains "Interactive AI Chat Terminal". -/
theorem version_and_help_tests_pass_iff (exeExists : Bool) (runV runH : Except Unit String) :
    (test_version_check exeExists runV = true ↔
      (exeExists = true ∧ ∃ out, runV = Except.ok out ∧ strContains "LLM REPL v" out = true)) ∧
    (test_help_output exeExists runH = true ↔
      (exeExists = true ∧ ∃ out, runH = Except.ok out ∧
        strContains "Interactive AI Chat Terminal" out = true)) := by
  cases exeExists <;> cases runV <;> cases runH <;>
    simp [test_version_check, test_help_output]

/-- C9: whenever the executable exists, the Invalid Arguments test
passes regardless of the run's exit code, output, or a raised
exception; it fails exactly when the executable is missing. -/
theorem invalid_args_test_always_passes (run : Except Unit (Int × String)) :
    test_invalid_args true run = true ∧ test_invalid_args false run = false := by
  cases run <;> simp [test_invalid_args]

/-- C10: in `llm-repl.py`'s `main` (for a command other than `help`),
when `--jobs` is the last option token, the jobs block yields the
default 4 and `main` proceeds to dispatch with 4 parallel jobs; when a
token follows the first `--jobs` and is not a valid Python integer,
`main` returns exit code 1 without dispatching any command. -/
theorem jobs_option_handling (exec : String → Bool) (cmd0 : String) (rest : List String)
    (hcmd : pyLower cmd0 ≠ "help") :
    (((splitDashDash rest).1.contains "--jobs" = true ∧
        (splitDashDash rest).1.indexOf "--jobs" + 1 = (splitDashDash rest).1.length) →
      parseJobs (splitDashDash rest).1 = Except.ok 4 ∧
      (llmMain (cmd0 :: rest) exec).jobsUsed = some 4) ∧
    ((splitDashDash rest).1.contains "--jobs" = true →
      (splitDashDash rest).1.indexOf "--jobs" + 1 < (splitDashDash rest).1.length →
      pyIntParse ((splitDashDash rest).1.getD ((splitDashDash rest).1.indexOf "--jobs" + 1) "")
        = none →
      llmMain (cmd0 :: rest) exec = ⟨1, none, none⟩) := by
  constructor
  · rintro ⟨hcont, hlen⟩
    have hnl : ¬((splitDashDash rest).1.indexOf "--jobs" + 1 < (splitDashDash rest).1.length) := by
      omega
    have hpj : parseJobs (splitDashDash rest).1 = Except.ok 4 := by
      simp [parseJobs, hcont, hnl]
    refine ⟨hpj, ?_⟩
    simp only [llmMain, if_neg hcmd, hpj]
    by_cases hk : pyLower cmd0 ∈ knownCommands <;> simp [hk]
  · intro hcont hlt hparse
    have hpj : parseJobs (splitDashDash rest).1 = Except.error () := by
      unfold parseJobs
      rw [if_pos hcont, if_pos hlt, hparse]
    simp [llmMain, if_neg hcmd, hpj]

/-- Witness for C10: `python llm-repl.py build --jobs` proceeds with
the default of 4 jobs, and `python llm-repl.py build --jobs abc` exits
with code 1 without dispatching any command. -/
theorem jobs_option_handling_witness :
    (parseJobs ["--jobs"] = Except.ok 4 ∧
      (llmMain ["build", "--jobs"] (fun _ => true)).jobsUsed = some 4) ∧
    llmMain ["build", "--jobs", "abc"] (fun _ => true) = ⟨1, none, none⟩ :=
  ⟨(jobs_option_handling (fun _ => true) "build" ["--jobs"] (by decide)).1 (by decide),
   (jobs_option_handling (fun _ => true) "build" ["--jobs", "abc"] (by decide)).2
     (by decide) (by decide) (by decide)⟩
